import Mathlib

/-!
Verification of the salary-simulator calculation core.

The two components under verification are the withholding engine
(irs-withholding service: `calculate`, `pickTableId`, `pickBand`,
`resolveDeduction`, `round2`) and the reverse solver
(salary-reverse service: `getProposals`, `solveForAnnualCost`,
`calculateOutputs`).

Modelling conventions:
* JavaScript numbers are modelled as exact rationals (`ℚ`); float rounding
  is abstracted away, `Number.EPSILON` in `round2` is kept literally.
* A thrown `Error` is modelled as `Except.error` with an `IrsError`
  constructor per distinct error site; `Math.round` rounds half toward
  positive infinity, i.e. `fun x => ⌊x + 1/2⌋`.
* The engine's mutable `data?: IrsDataset` field is passed explicitly as an
  `Option IrsDataset` argument.
* `Array.prototype.sort` (stable since ES2019) is modelled by the stable
  `List.insertionSort`.
* Dataset `meta` information is carried nowhere into the calculation and is
  omitted from the embedded `IrsDataset`.
-/

namespace SalarySim

set_option maxRecDepth 1000000

attribute [local semireducible] Rat.add Rat.sub Rat.mul Rat.inv Rat.ofScientific

/-- Equality of `Except` values is decidable when it is on both sides. -/
instance {ε α : Type} [DecidableEq ε] [DecidableEq α] : DecidableEq (Except ε α) :=
  fun x y =>
    match x, y with
    | .ok a, .ok b =>
      match decEq a b with
      | isTrue h => isTrue (h ▸ rfl)
      | isFalse h => isFalse (fun e => h (Except.ok.inj e))
    | .error a, .error b =>
      match decEq a b with
      | isTrue h => isTrue (h ▸ rfl)
      | isFalse h => isFalse (fun e => h (Except.error.inj e))
    | .ok _, .error _ => isFalse (fun e => Except.noConfusion e)
    | .error _, .ok _ => isFalse (fun e => Except.noConfusion e)

/-- JavaScript `Number.EPSILON` = 2⁻⁵², added by the source's `round2`. -/
def numberEpsilon : ℚ := 1 / 2 ^ 52

/-- Source `round2(n) = Math.round((n + Number.EPSILON) * 100) / 100`. -/
def round2 (n : ℚ) : ℚ := ((⌊(n + numberEpsilon) * 100 + 1 / 2⌋ : ℤ) : ℚ) / 100

/-- Source `LocationPT = 'continente' | 'madeira' | 'acores'`. -/
inductive LocationPT
  | continente
  | madeira
  | acores
deriving DecidableEq, Repr

/-- Source `MaritalStatus`. -/
inductive MaritalStatus
  | single
  | married_one_holder
  | married_two_holders
deriving DecidableEq, Repr

/-- Source `type Deduction = number | { type: 'formula'; expression: string }`. -/
inductive Deduction
  | lit (value : ℚ)
  | formula (expression : String)
deriving DecidableEq, Repr

/-- Source `interface Band` (fields `effectiveRateAtLimit` and `notes` are
never read by the calculation and are omitted). -/
structure Band where
  upTo : Option ℚ := none
  over : Option ℚ := none
  rate : ℚ
  deduction : Deduction
  additionalPerDependent : Option ℚ := none
deriving DecidableEq, Repr

/-- One entry of `IrsDataset.tables`. -/
structure IrsTable where
  id : String
  name : String := ""
  audience : String := ""
  hasDisability : Bool := false
  assumesDependents : String := ""
  bands : List Band
deriving DecidableEq, Repr

/-- Source `interface IrsDataset` (the calculation reads only `tables`). -/
structure IrsDataset where
  tables : List IrsTable
deriving DecidableEq, Repr

/-- Source `interface IrsInput`. -/
structure IrsInput where
  grossSalary : ℚ
  maritalStatus : MaritalStatus
  location : LocationPT
  dependents : ℚ
  hasDisability : Option Bool := none
  socialSecurityRate : Option ℚ := none
deriving DecidableEq, Repr

/-- Source `interface IrsResult`. -/
structure IrsResult where
  tableId : String
  band : Band
  rate : ℚ
  deduction : ℚ
  additionalPerDependent : ℚ
  irsWithheld : ℚ
  socialSecurity : ℚ
  netSalary : ℚ
deriving DecidableEq, Repr

/-- The distinct `throw new Error(...)` sites of the two services.
`nullBestResult` models the reverse solver reading its `bestResult!`
non-null assertion when no iteration ran; with the fixed 50-iteration
loop that branch is unreachable. -/
inductive IrsError
  | configurationError
  | validationError (message : String)
  | tableNotFoundError (tableId : String)
  | bandNotFoundError
  | unsupportedFormulaError (expression : String)
  | invalidNumbersError (expression : String)
  | nullBestResult
deriving DecidableEq, Repr

/-- Source `pickTableId`: maps marital status, dependents and disability to
the table id I..VII. -/
def pickTableId (maritalStatus : MaritalStatus) (dependents : ℚ)
    (hasDisability : Bool) : String :=
  if hasDisability then
    match maritalStatus with
    | .married_one_holder => "VII"
    | .married_two_holders => if 1 ≤ dependents then "VI" else "IV"
    | .single => if 1 ≤ dependents then "V" else "IV"
  else
    match maritalStatus with
    | .married_one_holder => "III"
    | _ => if 1 ≤ dependents then "II" else "I"

/-- The scan predicate of `pickBand`:
`typeof b.upTo === 'number' && grossSalary <= b.upTo`. -/
def bandMatches (grossSalary : ℚ) (b : Band) : Bool :=
  match b.upTo with
  | some u => grossSalary ≤ u
  | none => false

/-- The comparator of `pickBand`'s sort: ascending by `upTo`, a band without
`upTo` treated as positive infinity (sorts last). -/
def bandLeB (a b : Band) : Bool :=
  match a.upTo, b.upTo with
  | none, none => true
  | none, some _ => false
  | some _, none => true
  | some x, some y => x ≤ y

/-- `bandLeB` as a relation, for the stable sort. -/
def bandRel (a b : Band) : Prop := bandLeB a b = true

instance : DecidableRel bandRel := fun a b =>
  inferInstanceAs (Decidable (bandLeB a b = true))

/-- The sort of `pickBand`: `[...bands].sort((a, b) => (a.upTo ?? ∞) - (b.upTo ?? ∞))`,
a stable sort by the comparator. -/
def sortBands (bands : List Band) : List Band :=
  bands.insertionSort bandRel

/-- Source `pickBand`: sort ascending by `upTo` (open band last), return the
first band whose `upTo` is a number ≥ gross salary, otherwise the band
carrying `over`, otherwise fail. -/
def pickBand (bands : List Band) (grossSalary : ℚ) : Except IrsError Band :=
  match (sortBands bands).find? (bandMatches grossSalary) with
  | some b => .ok b
  | none =>
    match (sortBands bands).find? (fun b => b.over.isSome) with
    | some b => .ok b
    | none => .error .bandNotFoundError

/-- Source `expr.replace(/\s+/g, '')`: all whitespace removed. -/
def stripWhitespace (s : String) : String :=
  String.mk (s.toList.filter (fun c => !c.isWhitespace))

/-- A character of the regex class `[0-9.]`. -/
def isNumChar (c : Char) : Bool := c.isDigit || c == '.'

/-- The regex of `resolveDeduction`,
`/^([0-9.]+)\*([0-9.]+)\*\(([0-9.]+)-R\)$/i`, as a deterministic scanner
(the char class `[0-9.]` excludes every delimiter, so greedy matching never
backtracks). Returns the three captured groups. -/
def matchFormula (s : String) : Option (String × String × String) :=
  let cs := s.toList
  let a := cs.takeWhile isNumChar
  if a.isEmpty then none else
  match cs.dropWhile isNumChar with
  | '*' :: r2 =>
    let b := r2.takeWhile isNumChar
    if b.isEmpty then none else
    match r2.dropWhile isNumChar with
    | '*' :: '(' :: r4 =>
      let c := r4.takeWhile isNumChar
      if c.isEmpty then none else
      match r4.dropWhile isNumChar with
      | '-' :: rc :: ')' :: [] =>
        if rc == 'R' || rc == 'r' then some (String.mk a, String.mk b, String.mk c)
        else none
      | _ => none
    | _ => none
  | _ => none

/-- Decimal value of a digit list (most significant first). -/
def digitsVal (cs : List Char) : ℕ :=
  cs.foldl (fun a c => a * 10 + (c.toNat - 48)) 0

/-- JavaScript `Number(s)` restricted to the strings `[0-9.]+` can produce:
at most one dot and not the lone dot give a finite decimal, anything else
is `NaN` (modelled as `none`). -/
def parseNumber (s : String) : Option ℚ :=
  match s.toList.splitOn '.' with
  | [ip] => some ((digitsVal ip : ℕ) : ℚ)
  | [ip, fp] =>
    if ip.isEmpty && fp.isEmpty then none
    else some (((digitsVal ip : ℕ) : ℚ) + ((digitsVal fp : ℕ) : ℚ) / 10 ^ fp.length)
  | _ => none

/-- Source `resolveDeduction`: a literal deduction is returned as-is; a
formula must match `a*b*(c-R)` (whitespace ignored) with `a`, `b`, `c`
finite numbers, and evaluates to `a * b * (c - R)`. -/
def resolveDeduction (deduction : Deduction) (R : ℚ) : Except IrsError ℚ :=
  match deduction with
  | .lit x => .ok x
  | .formula expression =>
    match matchFormula (stripWhitespace expression) with
    | none => .error (.unsupportedFormulaError expression)
    | some (sa, sb, sc) =>
      match parseNumber sa, parseNumber sb, parseNumber sc with
      | some a, some b, some c => .ok (a * b * (c - R))
      | _, _, _ => .error (.invalidNumbersError expression)

/-- Source `calculate` of the irs-withholding service. The service's
`data?` field is the first argument. -/
def calculate (data : Option IrsDataset) (input : IrsInput) :
    Except IrsError IrsResult :=
  match data with
  | none => .error .configurationError
  | some d =>
    let grossSalary := input.grossSalary
    let dependents := input.dependents
    let hasDisability := input.hasDisability.getD false
    let socialSecurityRate := input.socialSecurityRate.getD 0.11
    if grossSalary ≤ 0 then
      .error (.validationError "grossSalary must be a positive number.")
    else if dependents < 0 ∨ dependents.isInt = false then
      .error (.validationError "dependents must be an integer >= 0.")
    else if input.location ≠ .continente then
      .error (.validationError "location not supported by this dataset (continente only).")
    else
      let tableId := pickTableId input.maritalStatus dependents hasDisability
      match d.tables.find? (fun t => t.id == tableId) with
      | none => .error (.tableNotFoundError tableId)
      | some table =>
        match pickBand table.bands grossSalary with
        | .error e => .error e
        | .ok band =>
          let rate := band.rate
          let additionalPerDependent := band.additionalPerDependent.getD 0
          match resolveDeduction band.deduction grossSalary with
          | .error e => .error e
          | .ok deduction =>
            let irsRaw := grossSalary * rate - deduction
              - additionalPerDependent * dependents
            let irsWithheld := round2 (max 0 irsRaw)
            let socialSecurity := round2 (grossSalary * socialSecurityRate)
            let netSalary := round2 (grossSalary - irsWithheld - socialSecurity)
            .ok { tableId := tableId
                  band := band
                  rate := rate
                  deduction := round2 deduction
                  additionalPerDependent := round2 additionalPerDependent
                  irsWithheld := irsWithheld
                  socialSecurity := socialSecurity
                  netSalary := netSalary }

/-- Source `interface ReverseCalculationInput` of the salary-reverse service. -/
structure ReverseCalculationInput where
  targetNetSalary : ℚ
  location : LocationPT
  maritalStatus : MaritalStatus
  dependents : ℚ
  hasDuodecimos : Bool
  mealAllowanceDaily : ℚ
  mealAllowanceDays : ℚ
  mealAllowanceMonths : ℚ
  ihtPercentage : ℚ
  tsu : ℚ
  ssRate : ℚ
deriving DecidableEq, Repr

/-- Source `interface CalculationProposal`. -/
structure CalculationProposal where
  flexBenefitsPercentage : ℚ
  annualCost : ℚ
  monthlyBaseSalary : ℚ
  monthlyIHT : ℚ
  monthlyBenefits : ℚ
  monthlyMealAllowance : ℚ
  irs : ℚ
  socialSecurityMax : ℚ
  socialSecurityMin : ℚ
  totalNetMin : ℚ
  totalNetMax : ℚ
deriving DecidableEq, Repr

/-! The local constants of the source's `calculateOutputs` are factored into
named definitions so that theorems can speak about them; `calculateOutputs`
below combines them exactly as the source does. -/

/-- `monthsToMultiply = input.hasDuodecimos ? 12 : 14`. -/
def monthsToMultiply (input : ReverseCalculationInput) : ℚ :=
  if input.hasDuodecimos then 12 else 14

/-- `annualDailyMealAllowance = daily * days * months`. -/
def annualDailyMealAllowance (input : ReverseCalculationInput) : ℚ :=
  input.mealAllowanceDaily * input.mealAllowanceDays * input.mealAllowanceMonths

/-- `monthlyMealAllowance = daily * days`. -/
def monthlyMealAllowanceOf (input : ReverseCalculationInput) : ℚ :=
  input.mealAllowanceDaily * input.mealAllowanceDays

/-- `valueSubjectToTsu = Math.max(0, annualCost - annualDailyMealAllowance)`. -/
def valueSubjectToTsu (input : ReverseCalculationInput) (annualCost : ℚ) : ℚ :=
  max 0 (annualCost - annualDailyMealAllowance input)

/-- `totalValueAfterTsu = valueSubjectToTsu / (1 + tsu / 100)`. -/
def totalValueAfterTsu (input : ReverseCalculationInput) (annualCost : ℚ) : ℚ :=
  valueSubjectToTsu input annualCost / (1 + input.tsu / 100)

/-- `monthlyValueToDistribute = totalValueAfterTsu / monthsToMultiply`. -/
def monthlyValueToDistribute (input : ReverseCalculationInput) (annualCost : ℚ) : ℚ :=
  totalValueAfterTsu input annualCost / monthsToMultiply input

/-- `monthlyValueToBenefits = totalValueAfterTsu * flexPct / 12`. -/
def monthlyValueToBenefits (input : ReverseCalculationInput)
    (annualCost flexPct : ℚ) : ℚ :=
  totalValueAfterTsu input annualCost * flexPct / 12

/-- `monthlyValueWithoutBenefits = monthlyValueToDistribute - monthlyValueToBenefits`. -/
def monthlyValueWithoutBenefits (input : ReverseCalculationInput)
    (annualCost flexPct : ℚ) : ℚ :=
  monthlyValueToDistribute input annualCost - monthlyValueToBenefits input annualCost flexPct

/-- `monthlyIHT = monthlyValueWithoutBenefits * ihtPercentage / 100`. -/
def monthlyIHTOf (input : ReverseCalculationInput) (annualCost flexPct : ℚ) : ℚ :=
  monthlyValueWithoutBenefits input annualCost flexPct * input.ihtPercentage / 100

/-- `monthlyBaseSalary = monthlyValueWithoutBenefits - monthlyIHT`. -/
def monthlyBaseSalaryOf (input : ReverseCalculationInput) (annualCost flexPct : ℚ) : ℚ :=
  monthlyValueWithoutBenefits input annualCost flexPct - monthlyIHTOf input annualCost flexPct

/-- `grossSalary = monthlyBaseSalary + monthlyIHT`. -/
def reverseGrossSalary (input : ReverseCalculationInput) (annualCost flexPct : ℚ) : ℚ :=
  monthlyBaseSalaryOf input annualCost flexPct + monthlyIHTOf input annualCost flexPct

/-- Source `calculateOutputs` of the salary-reverse service: decompose a
candidate annual employer cost into monthly values and run the withholding
engine for the max scenario (benefits exempt), the min scenario (benefits
taxed, social-security rate forced to 0) and the separate social-security
call. The injected withholding service's dataset is the `data` argument. -/
def calculateOutputs (data : Option IrsDataset) (input : ReverseCalculationInput)
    (annualCost flexPct : ℚ) : Except IrsError CalculationProposal :=
  let grossSalary := reverseGrossSalary input annualCost flexPct
  match calculate data { grossSalary := grossSalary
                         maritalStatus := input.maritalStatus
                         location := input.location
                         dependents := input.dependents
                         socialSecurityRate := some input.ssRate } with
  | .error e => .error e
  | .ok calculationMax =>
    let totalNetMax := calculationMax.netSalary + monthlyMealAllowanceOf input
      + monthlyValueToBenefits input annualCost flexPct
    match calculate data { grossSalary := grossSalary + monthlyValueToBenefits input annualCost flexPct
                           maritalStatus := input.maritalStatus
                           location := input.location
                           dependents := input.dependents
                           socialSecurityRate := some 0 } with
    | .error e => .error e
    | .ok calculationMinIRS =>
      match calculate data { grossSalary := grossSalary
                             maritalStatus := input.maritalStatus
                             location := input.location
                             dependents := input.dependents
                             socialSecurityRate := some input.ssRate } with
      | .error e => .error e
      | .ok ssForMinCalc =>
        let ssForMin := ssForMinCalc.socialSecurity
        let netSalaryMin := grossSalary + monthlyValueToBenefits input annualCost flexPct
          - calculationMinIRS.irsWithheld - ssForMin
        let totalNetMin := netSalaryMin + monthlyMealAllowanceOf input
        .ok { flexBenefitsPercentage := flexPct * 100
              annualCost := annualCost
              monthlyBaseSalary := monthlyBaseSalaryOf input annualCost flexPct
              monthlyIHT := monthlyIHTOf input annualCost flexPct
              monthlyBenefits := monthlyValueToBenefits input annualCost flexPct
              monthlyMealAllowance := monthlyMealAllowanceOf input
              irs := calculationMax.irsWithheld
              socialSecurityMax := calculationMax.socialSecurity
              socialSecurityMin := ssForMin
              totalNetMin := totalNetMin
              totalNetMax := totalNetMax }

/-- One iteration of the binary-search loop in `solveForAnnualCost`: state is
`(low, high, bestResult)`. -/
def solveStep (data : Option IrsDataset) (input : ReverseCalculationInput)
    (flexPct : ℚ) (s : ℚ × ℚ × Option CalculationProposal) :
    Except IrsError (ℚ × ℚ × Option CalculationProposal) :=
  let mid := (s.1 + s.2.1) / 2
  match calculateOutputs data input mid flexPct with
  | .error e => .error e
  | .ok result =>
    if result.totalNetMax < input.targetNetSalary then .ok (mid, s.2.1, some result)
    else .ok (s.1, mid, some result)

/-- The `for (let i = 0; i < n; i++)` loop of `solveForAnnualCost`: `n`
iterations of `solveStep`, an exception aborting the loop. -/
def solveLoop (data : Option IrsDataset) (input : ReverseCalculationInput)
    (flexPct : ℚ) : ℕ → ℚ × ℚ × Option CalculationProposal →
    Except IrsError (ℚ × ℚ × Option CalculationProposal)
  | 0, s => .ok s
  | n + 1, s =>
    match solveStep data input flexPct s with
    | .error e => .error e
    | .ok s2 => solveLoop data input flexPct n s2

/-- Reading `bestResult!` after the loop. -/
def solveExtract (r : Except IrsError (ℚ × ℚ × Option CalculationProposal)) :
    Except IrsError CalculationProposal :=
  match r with
  | .error e => .error e
  | .ok s =>
    match s.2.2 with
    | some result => .ok result
    | none => .error .nullBestResult

/-- Source `solveForAnnualCost`: 50-iteration binary search for the annual
cost over `[0, 1000000]`, returning the last computed result. -/
def solveForAnnualCost (data : Option IrsDataset) (input : ReverseCalculationInput)
    (flexPct : ℚ) : Except IrsError CalculationProposal :=
  solveExtract (solveLoop data input flexPct 50 (0, 1000000, none))

/-- The percentages of the sweep `for (let pct = 0; pct <= 30; pct += 5)`. -/
def sweepPercentages : List ℚ := [0, 5, 10, 15, 20, 25, 30]

/-- The body of `getProposals`' loop: solve for each percentage in order,
any exception aborting the sweep. `flexPct = pct == 0 ? 0 : pct / 100`. -/
def proposalsLoop (data : Option IrsDataset) (input : ReverseCalculationInput) :
    List ℚ → Except IrsError (List CalculationProposal)
  | [] => .ok []
  | pct :: rest =>
    match solveForAnnualCost data input (if pct == 0 then 0 else pct / 100) with
    | .error e => .error e
    | .ok r =>
      match proposalsLoop data input rest with
      | .error e => .error e
      | .ok rs => .ok (r :: rs)

/-- Source `getProposals` of the salary-reverse service. -/
def getProposals (data : Option IrsDataset) (input : ReverseCalculationInput) :
    Except IrsError (List CalculationProposal) :=
  proposalsLoop data input sweepPercentages

/-! Definitions transcribed from the specification's words (not from the
source), used to compare spec and code. -/

/-- Modelled from the spec's words (table-selection rules of §4.1): the
8-way mapping as the specification states it. -/
def specTableId (maritalStatus : MaritalStatus) (dependents : ℚ)
    (hasDisability : Bool) : String :=
  if hasDisability = false then
    if maritalStatus = .married_one_holder then "III"
    else if 1 ≤ dependents then "II" else "I"
  else
    if maritalStatus = .married_one_holder then "VII"
    else if maritalStatus = .married_two_holders then
      if 1 ≤ dependents then "VI" else "IV"
    else
      if 1 ≤ dependents then "V" else "IV"

/-- Modelled from the claim's words (C5): binary search on `[low, high]`
with the iteration count as the only stopping rule; each iteration computes
the max-net scenario at the midpoint, moves `low` up to the midpoint when
that max net salary is below the target and `high` down to it otherwise,
and after the last iteration the result computed at the last midpoint is
returned regardless of the residual gap. -/
def specSolveAux (data : Option IrsDataset) (input : ReverseCalculationInput)
    (flexPct : ℚ) : ℕ → ℚ → ℚ → Except IrsError CalculationProposal
  | 0, _, _ => .error .nullBestResult
  | n + 1, low, high =>
    let mid := (low + high) / 2
    match calculateOutputs data input mid flexPct with
    | .error e => .error e
    | .ok result =>
      match n with
      | 0 => .ok result
      | _ + 1 =>
        if result.totalNetMax < input.targetNetSalary then
          specSolveAux data input flexPct n mid high
        else
          specSolveAux data input flexPct n low mid

/-- Modelled from the claim's words (C5): 50 iterations over `[0, 1000000]`. -/
def specSolve (data : Option IrsDataset) (input : ReverseCalculationInput)
    (flexPct : ℚ) : Except IrsError CalculationProposal :=
  specSolveAux data input flexPct 50 0 1000000

/-- Modelled from the claim's words (C2): de-grossing factor
`(1 - p) * (1 + TSU) + p`. -/
def claimFactor (input : ReverseCalculationInput) (flexPct : ℚ) : ℚ :=
  (1 - flexPct) * (1 + input.tsu / 100) + flexPct

/-- Modelled from the claim's words (C2): distributable = taxable budget
(annual cost minus annual meal allowance) divided by the de-grossing factor. -/
def claimDistributable (input : ReverseCalculationInput) (annualCost flexPct : ℚ) : ℚ :=
  (annualCost - annualDailyMealAllowance input) / claimFactor input flexPct

/-- Modelled from the claim's words (C2): monthly gross = distributable
gross share `distributable * (1 - p)` divided by months-to-pay-over. -/
def claimMonthlyGross (input : ReverseCalculationInput) (annualCost flexPct : ℚ) : ℚ :=
  claimDistributable input annualCost flexPct * (1 - flexPct) / monthsToMultiply input

/-- Modelled from the claim's words (C2): monthly IHT =
`monthly gross * IHT% / (100 + IHT%)`. -/
def claimMonthlyIHT (input : ReverseCalculationInput) (annualCost flexPct : ℚ) : ℚ :=
  claimMonthlyGross input annualCost flexPct * input.ihtPercentage / (100 + input.ihtPercentage)

/-! Concrete data for witnesses and counterexamples. -/

/-- A one-table dataset whose single band is the open band with rate 0 and
deduction 0: every positive gross salary resolves to it. -/
def DS0 : IrsDataset :=
  { tables := [{ id := "I", bands := [{ over := some 0, rate := 0, deduction := .lit 0 }] }] }

/-- A dataset with one bounded band (rate 20%, literal deduction 100) used
by the monotonicity analysis. -/
def band9 : Band := { upTo := some 2000, rate := 1/5, deduction := .lit 100 }

/-- Dataset holding `band9` as table I. -/
def DS9 : IrsDataset := { tables := [{ id := "I", bands := [band9] }] }

/-- Scenario-B dataset of the spec (table I band: up to 2000, rate 0.212,
deduction 158.18). -/
def bandB : Band := { upTo := some 2000, rate := 0.212, deduction := .lit 158.18 }

/-- Dataset holding `bandB` as table I. -/
def DSB : IrsDataset := { tables := [{ id := "I", bands := [bandB] }] }

/-- The three-band table of the spec's band-selection scenario: bounded
bands up to 920 and 1042 plus the open band over 1042. -/
def bands920 : List Band :=
  [{ upTo := some 920, rate := 0.13, deduction := .lit 50 },
   { upTo := some 1042, rate := 0.165, deduction := .lit 80 },
   { over := some 1042, rate := 0.22, deduction := .lit 120 }]

/-- Gross salary 1000.771: the smaller input of the monotonicity
counterexample. -/
def inp9a : IrsInput :=
  { grossSalary := 1000771/1000, maritalStatus := .single,
    location := .continente, dependents := 0 }

/-- Gross salary 1000.775: the larger input of the monotonicity
counterexample. -/
def inp9b : IrsInput :=
  { grossSalary := 1000775/1000, maritalStatus := .single,
    location := .continente, dependents := 0 }

/-- Spec scenario B input: gross 1200, single, 0 dependents. -/
def inpB : IrsInput :=
  { grossSalary := 1200, maritalStatus := .single,
    location := .continente, dependents := 0 }

/-- The withholding result of `calculate` on `DS9`/`inp9a`. -/
def res9a : IrsResult :=
  { tableId := "I", band := band9, rate := 1/5, deduction := 100,
    additionalPerDependent := 0, irsWithheld := 10015/100,
    socialSecurity := 11008/100, netSalary := 79054/100 }

/-- The withholding result of `calculate` on `DS9`/`inp9b`. -/
def res9b : IrsResult :=
  { tableId := "I", band := band9, rate := 1/5, deduction := 100,
    additionalPerDependent := 0, irsWithheld := 10016/100,
    socialSecurity := 11009/100, netSalary := 79053/100 }

/-- A reverse-calculation input on which every inner withholding call
succeeds (no meal allowance, so the clamp never forces a zero gross). -/
def revOk : ReverseCalculationInput :=
  { targetNetSalary := 1000, location := .continente, maritalStatus := .single,
    dependents := 0, hasDuodecimos := true, mealAllowanceDaily := 0,
    mealAllowanceDays := 0, mealAllowanceMonths := 0, ihtPercentage := 0,
    tsu := 0, ssRate := 0 }

/-- A reverse-calculation input with IHT percentage 100 and no TSU and no
meal allowance, separating the code's IHT formula from the claimed one. -/
def revIht : ReverseCalculationInput :=
  { targetNetSalary := 0, location := .continente, maritalStatus := .single,
    dependents := 0, hasDuodecimos := true, mealAllowanceDaily := 0,
    mealAllowanceDays := 0, mealAllowanceMonths := 0, ihtPercentage := 100,
    tsu := 0, ssRate := 0 }

/-- The proposal `calculateOutputs` produces on `DS0`/`revIht` at annual
cost 120 with percentage 0. -/
def c2wProposal : CalculationProposal :=
  { flexBenefitsPercentage := 0, annualCost := 120, monthlyBaseSalary := 0,
    monthlyIHT := 10, monthlyBenefits := 0, monthlyMealAllowance := 0,
    irs := 0, socialSecurityMax := 0, socialSecurityMin := 0,
    totalNetMin := 10, totalNetMax := 10 }

/-- A reverse-calculation input with an ordinary meal allowance
(10 EUR × 22 days × 11 months = 2420 annually) and target net salary 0. -/
def revMeal : ReverseCalculationInput :=
  { targetNetSalary := 0, location := .continente, maritalStatus := .single,
    dependents := 0, hasDuodecimos := true, mealAllowanceDaily := 10,
    mealAllowanceDays := 22, mealAllowanceMonths := 11, ihtPercentage := 0,
    tsu := 0, ssRate := 0 }

/-- A reverse-calculation input with a positive but astronomically small
meal allowance (2⁻⁵¹ EUR daily for one day of one month), smaller than any
midpoint the 50 halvings of the search interval can reach. -/
def revTiny : ReverseCalculationInput :=
  { targetNetSalary := 0, location := .continente, maritalStatus := .single,
    dependents := 0, hasDuodecimos := true, mealAllowanceDaily := 1 / 2 ^ 51,
    mealAllowanceDays := 1, mealAllowanceMonths := 1, ihtPercentage := 0,
    tsu := 0, ssRate := 0 }

/-! Helper lemmas. -/

theorem round2_zero : round2 0 = 0 := by decide

theorem round2_mono {a b : ℚ} (h : a ≤ b) : round2 a ≤ round2 b := by
  unfold round2
  have hf : (⌊(a + numberEpsilon) * 100 + 1 / 2⌋ : ℤ) ≤ ⌊(b + numberEpsilon) * 100 + 1 / 2⌋ :=
    Int.floor_le_floor (by linarith)
  have : ((⌊(a + numberEpsilon) * 100 + 1 / 2⌋ : ℤ) : ℚ) ≤ ((⌊(b + numberEpsilon) * 100 + 1 / 2⌋ : ℤ) : ℚ) := by
    exact_mod_cast hf
  linarith

theorem round2_le (q : ℚ) : round2 q ≤ q + 1 / 100 := by
  unfold round2 numberEpsilon
  have hf : ((⌊(q + 1 / 2 ^ 52) * 100 + 1 / 2⌋ : ℤ) : ℚ) ≤ (q + 1 / 2 ^ 52) * 100 + 1 / 2 :=
    Int.floor_le _
  have hq : ((1 : ℚ) / 2 ^ 52) * 100 ≤ 1 / 2 := by norm_num
  nlinarith

theorem round2_ge (q : ℚ) : q - 1 / 200 ≤ round2 q := by
  unfold round2 numberEpsilon
  have hf : (q + 1 / 2 ^ 52) * 100 + 1 / 2 - 1 < ((⌊(q + 1 / 2 ^ 52) * 100 + 1 / 2⌋ : ℤ) : ℚ) :=
    Int.sub_one_lt_floor _
  have hq : (0 : ℚ) ≤ (1 / 2 ^ 52) * 100 := by norm_num
  nlinarith

theorem round2_nonneg {q : ℚ} (h : 0 ≤ q) : 0 ≤ round2 q :=
  round2_zero ▸ round2_mono h

theorem round2_max_comm (x : ℚ) : round2 (max 0 x) = max 0 (round2 x) := by
  rcases le_total x 0 with hx | hx
  · rw [max_eq_left hx, round2_zero, max_eq_left (round2_zero ▸ round2_mono hx)]
  · rw [max_eq_right hx, max_eq_right (round2_zero ▸ round2_mono hx)]

theorem max0_le_shift {a b : ℚ} (h : a ≤ b) : max 0 b ≤ max 0 a + (b - a) := by
  apply max_le
  · have := le_max_left (0 : ℚ) a
    linarith
  · have := le_max_right (0 : ℚ) a
    linarith

theorem bandLeB_refl (b : Band) : bandLeB b b = true := by
  obtain ⟨u, o, r, d, a⟩ := b
  cases u <;> simp [bandLeB]

instance : IsTotal Band bandRel := by
  constructor
  intro a b
  obtain ⟨au, ao, ar, ad, aa⟩ := a
  obtain ⟨bu, bo, br, bd, ba⟩ := b
  cases au <;> cases bu <;> simp [bandRel, bandLeB, le_total]

instance : IsTrans Band bandRel := by
  constructor
  intro a b c hab hbc
  obtain ⟨au, ao, ar, ad, aa⟩ := a
  obtain ⟨bu, bo, br, bd, ba⟩ := b
  obtain ⟨cu, co, cr, cd, ca⟩ := c
  cases au <;> cases bu <;> cases cu <;>
    simp_all [bandRel, bandLeB] <;> exact le_trans hab hbc

theorem mem_sortBands {b : Band} {bands : List Band} :
    b ∈ sortBands bands ↔ b ∈ bands :=
  (List.perm_insertionSort bandRel bands).mem_iff

theorem sorted_sortBands (bands : List Band) :
    List.Sorted bandRel (sortBands bands) :=
  List.sorted_insertionSort bandRel bands

theorem find?_min_of_sorted {p : Band → Bool} :
    ∀ (l : List Band), List.Sorted bandRel l → ∀ (b : Band), l.find? p = some b →
      ∀ b' ∈ l, p b' = true → bandRel b b' := by
  intro l
  induction l with
  | nil => intro _ b hf; simp at hf
  | cons x xs ih =>
    intro hs b hf b' hb' hp'
    have hpair := List.pairwise_cons.mp hs
    rcases List.mem_cons.mp hb' with rfl | hmem
    · cases hpx : p b' with
      | true =>
        rw [List.find?_cons, hpx] at hf
        cases hf
        exact bandLeB_refl b
      | false => rw [hp'] at hpx; cases hpx
    · cases hpx : p x with
      | true =>
        rw [List.find?_cons, hpx] at hf
        cases hf
        exact hpair.1 b' hmem
      | false =>
        rw [List.find?_cons, hpx] at hf
        exact ih hpair.2 b hf b' hmem hp'

theorem pickBand_ok_mem {bands : List Band} {g : ℚ} {b : Band}
    (h : pickBand bands g = .ok b) : b ∈ bands := by
  unfold pickBand at h
  split at h
  · cases h
    exact mem_sortBands.mp (List.mem_of_find?_eq_some (by assumption))
  · split at h
    · cases h
      exact mem_sortBands.mp (List.mem_of_find?_eq_some (by assumption))
    · cases h

theorem pickBand_error_shape {bands : List Band} {g : ℚ} {e : IrsError}
    (h : pickBand bands g = .error e) : e = .bandNotFoundError := by
  unfold pickBand at h
  split at h
  · cases h
  · split at h
    · cases h
    · cases h
      rfl

theorem resolveDeduction_error_shape {d : Deduction} {R : ℚ} {e : IrsError}
    (h : resolveDeduction d R = .error e) :
    (∃ s, e = .unsupportedFormulaError s) ∨ ∃ s, e = .invalidNumbersError s := by
  unfold resolveDeduction at h
  split at h
  · cases h
  · split at h
    · cases h
      exact .inl ⟨_, rfl⟩
    · split at h
      all_goals cases h
      all_goals exact .inr ⟨_, rfl⟩

theorem calculate_none (input : IrsInput) :
    calculate none input = .error .configurationError := rfl

theorem calculate_ok_spec {ds : IrsDataset} {input : IrsInput} {r : IrsResult}
    (h : calculate (some ds) input = .ok r) :
    0 < input.grossSalary ∧ 0 ≤ input.dependents ∧ input.dependents.isInt = true ∧
    input.location = .continente ∧
    ∃ t, ds.tables.find?
        (fun tb => tb.id == pickTableId input.maritalStatus input.dependents
          (input.hasDisability.getD false)) = some t ∧
      pickBand t.bands input.grossSalary = .ok r.band ∧
      ∃ d, resolveDeduction r.band.deduction input.grossSalary = .ok d ∧
        r.tableId = pickTableId input.maritalStatus input.dependents
          (input.hasDisability.getD false) ∧
        r.rate = r.band.rate ∧
        r.deduction = round2 d ∧
        r.additionalPerDependent = round2 (r.band.additionalPerDependent.getD 0) ∧
        r.irsWithheld = round2 (max 0 (input.grossSalary * r.band.rate - d -
          (r.band.additionalPerDependent.getD 0) * input.dependents)) ∧
        r.socialSecurity = round2 (input.grossSalary * (input.socialSecurityRate.getD 0.11)) ∧
        r.netSalary = round2 (input.grossSalary - r.irsWithheld - r.socialSecurity) := by
  simp only [calculate] at h
  split_ifs at h with h1 h2 h3
  rw [not_or] at h2
  refine ⟨lt_of_not_le h1, not_lt.mp h2.1, ?_, not_not.mp h3, ?_⟩
  · cases hb : input.dependents.isInt
    · exact absurd hb h2.2
    · rfl
  · split at h
    · cases h
    · rename_i table htable
      split at h
      · cases h
      · rename_i band hband
        split at h
        · cases h
        · rename_i dd hded
          cases h
          exact ⟨table, htable, hband, dd, hded, rfl, rfl, rfl, rfl, rfl, rfl, rfl⟩

/-- Inversion of a successful `calculateOutputs` call. -/
theorem calculateOutputs_ok_fields {data : Option IrsDataset}
    {input : ReverseCalculationInput} {ac p : ℚ} {r : CalculationProposal}
    (h : calculateOutputs data input ac p = .ok r) :
    r.flexBenefitsPercentage = p * 100 ∧
    r.annualCost = ac ∧
    r.monthlyBaseSalary = monthlyBaseSalaryOf input ac p ∧
    r.monthlyIHT = monthlyIHTOf input ac p ∧
    r.monthlyBenefits = monthlyValueToBenefits input ac p ∧
    r.monthlyMealAllowance = monthlyMealAllowanceOf input ∧
    ∃ cmax, calculate data { grossSalary := reverseGrossSalary input ac p
                             maritalStatus := input.maritalStatus
                             location := input.location
                             dependents := input.dependents
                             socialSecurityRate := some input.ssRate } = .ok cmax ∧
      r.irs = cmax.irsWithheld ∧
      r.socialSecurityMax = cmax.socialSecurity ∧
      r.totalNetMax = cmax.netSalary + monthlyMealAllowanceOf input
        + monthlyValueToBenefits input ac p := by
  simp only [calculateOutputs] at h
  split at h
  · cases h
  · rename_i cmax hmax
    split at h
    · cases h
    · rename_i cmin hmin
      split at h
      · cases h
      · rename_i css hss
        cases h
        exact ⟨rfl, rfl, rfl, rfl, rfl, rfl, cmax, hmax, rfl, rfl, rfl⟩

/-- When the candidate annual cost does not exceed the annual meal
allowance, every monthly component collapses to 0. -/
theorem reverseGrossSalary_zero {input : ReverseCalculationInput} {ac p : ℚ}
    (h : ac ≤ annualDailyMealAllowance input) :
    reverseGrossSalary input ac p = 0 := by
  simp [reverseGrossSalary, monthlyBaseSalaryOf, monthlyIHTOf,
    monthlyValueWithoutBenefits, monthlyValueToDistribute, monthlyValueToBenefits,
    totalValueAfterTsu, valueSubjectToTsu, max_eq_left (sub_nonpos.mpr h)]

/-- When the candidate annual cost does not exceed the annual meal
allowance, the inner withholding call receives gross salary 0 and fails
its positive-gross-salary validation, aborting `calculateOutputs`. -/
theorem calculateOutputs_meal_error {ds : IrsDataset}
    {input : ReverseCalculationInput} {ac p : ℚ}
    (h : ac ≤ annualDailyMealAllowance input) :
    calculateOutputs (some ds) input ac p =
      .error (.validationError "grossSalary must be a positive number.") := by
  have hg : reverseGrossSalary input ac p = 0 := reverseGrossSalary_zero h
  simp only [calculateOutputs]
  rw [hg]
  have hc : calculate (some ds) { grossSalary := (0 : ℚ)
                                  maritalStatus := input.maritalStatus
                                  location := input.location
                                  dependents := input.dependents
                                  socialSecurityRate := some input.ssRate } =
      .error (.validationError "grossSalary must be a positive number.") := by
    simp [calculate]
  rw [hc]

/-- One-step unfolding of the binary-search loop. -/
theorem solveLoop_succ (data : Option IrsDataset) (input : ReverseCalculationInput)
    (flexPct : ℚ) (n : ℕ) (s : ℚ × ℚ × Option CalculationProposal) :
    solveLoop data input flexPct (n + 1) s =
      match solveStep data input flexPct s with
      | .error e => .error e
      | .ok s2 => solveLoop data input flexPct n s2 := rfl

/-- `solveStep` without its `let`. -/
theorem solveStep_eq (data : Option IrsDataset) (input : ReverseCalculationInput)
    (flexPct : ℚ) (low high : ℚ) (b : Option CalculationProposal) :
    solveStep data input flexPct (low, high, b) =
      match calculateOutputs data input ((low + high) / 2) flexPct with
      | .error e => .error e
      | .ok result =>
        if result.totalNetMax < input.targetNetSalary then
          .ok ((low + high) / 2, high, some result)
        else
          .ok (low, (low + high) / 2, some result) := rfl

/-- Every proposal stored by the loop carries `flexPct * 100`. -/
theorem solveLoop_flex {data : Option IrsDataset} {input : ReverseCalculationInput}
    {p : ℚ} : ∀ (n : ℕ) (s s' : ℚ × ℚ × Option CalculationProposal),
    solveLoop data input p n s = .ok s' →
    (∀ x, s.2.2 = some x → x.flexBenefitsPercentage = p * 100) →
    ∀ x, s'.2.2 = some x → x.flexBenefitsPercentage = p * 100 := by
  intro n
  induction n with
  | zero =>
    intro s s' h hs
    cases h
    exact hs
  | succ n ih =>
    intro s s' h hs
    obtain ⟨low, high, b⟩ := s
    rw [solveLoop_succ, solveStep_eq] at h
    cases hco : calculateOutputs data input ((low + high) / 2) p with
    | error e => rw [hco] at h; cases h
    | ok result =>
      rw [hco] at h
      dsimp only at h
      have hflex := (calculateOutputs_ok_fields hco).1
      by_cases hcond : result.totalNetMax < input.targetNetSalary
      · rw [if_pos hcond] at h
        dsimp only at h
        exact ih _ _ h (fun x hx => by cases hx; exact hflex)
      · rw [if_neg hcond] at h
        dsimp only at h
        exact ih _ _ h (fun x hx => by cases hx; exact hflex)

/-- The proposal returned by `solveForAnnualCost` carries `flexPct * 100`. -/
theorem solveForAnnualCost_flex {data : Option IrsDataset}
    {input : ReverseCalculationInput} {p : ℚ} {r : CalculationProposal}
    (h : solveForAnnualCost data input p = .ok r) :
    r.flexBenefitsPercentage = p * 100 := by
  unfold solveForAnnualCost solveExtract at h
  split at h
  · cases h
  · rename_i s hl
    split at h
    · rename_i result hsome
      cases h
      exact solveLoop_flex 50 _ _ hl (fun x hx => by cases hx) r hsome
    · cases h

/-- Length and percentage list of a successful `proposalsLoop` run. -/
theorem proposalsLoop_spec {data : Option IrsDataset}
    {input : ReverseCalculationInput} :
    ∀ (l : List ℚ) (ps : List CalculationProposal),
    proposalsLoop data input l = .ok ps →
    ps.length = l.length ∧
    ps.map (fun r => r.flexBenefitsPercentage) =
      l.map (fun pct => (if pct == 0 then 0 else pct / 100) * 100) := by
  intro l
  induction l with
  | nil =>
    intro ps h
    cases h
    simp
  | cons pct rest ih =>
    intro ps h
    simp only [proposalsLoop] at h
    split at h
    · cases h
    · rename_i r hr
      split at h
      · cases h
      · rename_i rs hrs
        cases h
        have hflex := solveForAnnualCost_flex hr
        obtain ⟨hlen, hmap⟩ := ih rs hrs
        simp [hlen, hmap, hflex]

/-- Under the hypothesis that no probed midpoint's max net salary is below
the target, the loop keeps `low = 0`, halves `high` each iteration, and
fails as soon as a midpoint falls at or below the annual meal allowance. -/
theorem solveLoop_error_of_meal {ds : IrsDataset}
    {input : ReverseCalculationInput} {p : ℚ}
    (hH : ∀ mid r, calculateOutputs (some ds) input mid p = .ok r →
      ¬ (r.totalNetMax < input.targetNetSalary)) :
    ∀ (n : ℕ) (high : ℚ) (b : Option CalculationProposal), 0 < n →
    high / 2 ^ n ≤ annualDailyMealAllowance input →
    ∃ e, solveLoop (some ds) input p n (0, high, b) = .error e := by
  intro n
  induction n with
  | zero => intro high b h0; exact absurd h0 (lt_irrefl 0)
  | succ n ih =>
    intro high b _ hsmall
    by_cases hm : (0 + high) / 2 ≤ annualDailyMealAllowance input
    · refine ⟨.validationError "grossSalary must be a positive number.", ?_⟩
      rw [solveLoop_succ, solveStep_eq, calculateOutputs_meal_error hm]
    · cases hco : calculateOutputs (some ds) input ((0 + high) / 2) p with
      | error e =>
        refine ⟨e, ?_⟩
        rw [solveLoop_succ, solveStep_eq, hco]
      | ok result =>
        have hc := hH _ _ hco
        have hstep : solveLoop (some ds) input p (n + 1) (0, high, b) =
            solveLoop (some ds) input p n (0, (0 + high) / 2, some result) := by
          rw [solveLoop_succ, solveStep_eq, hco]
          dsimp only
          rw [if_neg hc]
        rw [hstep]
        rcases Nat.eq_zero_or_pos n with rfl | hn
        · exfalso
          apply hm
          calc (0 + high) / 2 = high / 2 ^ 1 := by ring
          _ ≤ annualDailyMealAllowance input := by simpa using hsmall
        · apply ih _ _ hn
          calc (0 + high) / 2 / 2 ^ n = high / 2 ^ (n + 1) := by ring
          _ ≤ annualDailyMealAllowance input := hsmall

/-- One-step unfolding of the claim's binary-search recursion. -/
theorem specSolveAux_succ (data : Option IrsDataset) (input : ReverseCalculationInput)
    (p : ℚ) (n : ℕ) (low high : ℚ) :
    specSolveAux data input p (n + 1) low high =
      match calculateOutputs data input ((low + high) / 2) p with
      | .error e => .error e
      | .ok result =>
        match n with
        | 0 => .ok result
        | _ + 1 =>
          if result.totalNetMax < input.targetNetSalary then
            specSolveAux data input p n ((low + high) / 2) high
          else
            specSolveAux data input p n low ((low + high) / 2) := rfl

/-- The code's loop (state threading plus final `bestResult!` read) computes
the claim's recursion, for any positive iteration count. -/
theorem solveLoop_spec_eq {data : Option IrsDataset} {input : ReverseCalculationInput}
    {p : ℚ} : ∀ (n : ℕ) (low high : ℚ) (b : Option CalculationProposal),
    solveExtract (solveLoop data input p (n + 1) (low, high, b)) =
      specSolveAux data input p (n + 1) low high := by
  intro n
  induction n with
  | zero =>
    intro low high b
    rw [solveLoop_succ, solveStep_eq, specSolveAux_succ]
    cases hco : calculateOutputs data input ((low + high) / 2) p with
    | error e => rfl
    | ok result =>
      dsimp only
      by_cases hcond : result.totalNetMax < input.targetNetSalary
      · rw [if_pos hcond]; rfl
      · rw [if_neg hcond]; rfl
  | succ n ih =>
    intro low high b
    rw [solveLoop_succ, solveStep_eq, specSolveAux_succ]
    cases hco : calculateOutputs data input ((low + high) / 2) p with
    | error e => rfl
    | ok result =>
      dsimp only
      by_cases hcond : result.totalNetMax < input.targetNetSalary
      · rw [if_pos hcond, if_pos hcond]
        exact ih ((low + high) / 2) high (some result)
      · rw [if_neg hcond, if_neg hcond]
        exact ih low ((low + high) / 2) (some result)

/-- C3: table selection is a total deterministic function of marital
status, dependents and disability; it agrees with the spec's mapping
(married-one-holder to III resp. VII, the dependents-threshold cases as
specified) and every combination yields exactly one of the ids I..VII. -/
theorem c3_table_selection :
    ∀ (ms : MaritalStatus) (dependents : ℚ) (dis : Bool),
      pickTableId ms dependents dis = specTableId ms dependents dis ∧
      pickTableId ms dependents dis ∈ ["I", "II", "III", "IV", "V", "VI", "VII"] := by
  intro ms dep dis
  constructor
  · cases dis <;> cases ms <;> simp [pickTableId, specTableId]
  · rcases le_or_lt 1 dep with hdep | hdep
    · cases dis <;> cases ms <;> simp [pickTableId, hdep]
    · cases dis <;> cases ms <;> simp [pickTableId, not_le.mpr hdep]

/-- C6: a literal deduction is returned unchanged; a formula matching the
pattern `a*b*(c-R)` with parseable decimal literals evaluates to
`a * b * (c - grossSalary)` (in particular `0.125 * 2.60 * (1273.85 - R)`
at `R = 1000` gives `0.125 * 2.60 * (1273.85 - 1000)`); every expression
not matching the grammar (for example `2 * R`) fails with the
unsupported-formula error. -/
theorem c6_deduction_resolution :
    (∀ (x g : ℚ), resolveDeduction (.lit x) g = .ok x) ∧
    (∀ (e : String) (g : ℚ), matchFormula (stripWhitespace e) = none →
      resolveDeduction (.formula e) g = .error (.unsupportedFormulaError e)) ∧
    (∀ (e sa sb sc : String) (a b c g : ℚ),
      matchFormula (stripWhitespace e) = some (sa, sb, sc) →
      parseNumber sa = some a → parseNumber sb = some b → parseNumber sc = some c →
      resolveDeduction (.formula e) g = .ok (a * b * (c - g))) ∧
    resolveDeduction (.formula "0.125 * 2.60 * (1273.85 - R)") 1000 =
      .ok (0.125 * 2.60 * (1273.85 - 1000)) ∧
    (∀ g : ℚ, resolveDeduction (.formula "2 * R") g =
      .error (.unsupportedFormulaError "2 * R")) := by
  refine ⟨fun x g => rfl, ?_, ?_, by decide, ?_⟩
  · intro e g h
    simp only [resolveDeduction]
    rw [h]
  · intro e sa sb sc a b c g hm ha hb hc
    simp only [resolveDeduction]
    rw [hm]
    dsimp only
    rw [ha, hb, hc]
  · intro g
    simp only [resolveDeduction]
    rw [show matchFormula (stripWhitespace "2 * R") = none from by decide]

/-- C6 witness: the theorem applied at the spec's concrete formula (via its
captured groups), at a literal deduction, and at the non-matching `2 * R`. -/
theorem c6_witness :
    resolveDeduction (.formula "0.125 * 2.60 * (1273.85 - R)") 500 =
      .ok (0.125 * 2.60 * ((1273.85 : ℚ) - 500)) ∧
    resolveDeduction (.lit 94.71) 500 = .ok 94.71 ∧
    resolveDeduction (.formula "2 * R") 500 =
      .error (.unsupportedFormulaError "2 * R") :=
  ⟨c6_deduction_resolution.2.2.1 "0.125 * 2.60 * (1273.85 - R)"
      "0.125" "2.60" "1273.85" 0.125 2.60 1273.85 500
      (by decide) (by decide) (by decide) (by decide),
   c6_deduction_resolution.1 94.71 500,
   c6_deduction_resolution.2.2.2.2 500⟩

/-- C7: with no dataset, `calculate` fails with the configuration error;
with a dataset, it fails with a validation error exactly when the gross
salary is ≤ 0, or the dependents count is negative or not an integer, or
the location is not continente (non-finite numbers have no rational
counterpart and are outside the embedding). -/
theorem c7_validation :
    (∀ input : IrsInput, calculate none input = .error .configurationError) ∧
    (∀ (ds : IrsDataset) (input : IrsInput),
      (∃ m, calculate (some ds) input = .error (.validationError m)) ↔
        (input.grossSalary ≤ 0 ∨ input.dependents < 0 ∨
         input.dependents.isInt = false ∨ input.location ≠ .continente)) := by
  constructor
  · intro input; rfl
  · intro ds input
    constructor
    · rintro ⟨m, hm⟩
      by_contra hvalid
      push_neg at hvalid
      obtain ⟨h1, h2, h3, h4⟩ := hvalid
      simp only [calculate] at hm
      rw [if_neg (not_le.mpr h1), if_neg (not_or.mpr ⟨not_lt.mpr h2, h3⟩),
        if_neg (fun hne => hne h4)] at hm
      split at hm
      · simp at hm
      · split at hm
        · rename_i e hband
          have := pickBand_error_shape hband
          subst this
          simp at hm
        · split at hm
          · rename_i e hded
            rcases resolveDeduction_error_shape hded with ⟨s, rfl⟩ | ⟨s, rfl⟩ <;>
              simp at hm
          · simp at hm
    · intro hbad
      by_cases hg : input.grossSalary ≤ 0
      · exact ⟨_, by simp only [calculate]; rw [if_pos hg]⟩
      · by_cases hd : input.dependents < 0 ∨ input.dependents.isInt = false
        · exact ⟨_, by simp only [calculate]; rw [if_neg hg, if_pos hd]⟩
        · have hloc : input.location ≠ .continente := by
            rcases hbad with h | h | h | h
            · exact absurd h hg
            · exact absurd (Or.inl h) hd
            · exact absurd (Or.inr h) hd
            · exact h
          exact ⟨_, by simp only [calculate]; rw [if_neg hg, if_neg hd, if_pos hloc]⟩

/-- C4: band selection: when some bounded band covers the gross salary,
`pickBand` returns a covering bounded band whose bound is minimal among all
covering bounds (the first in ascending `upTo` order); when no bounded band
covers it, it returns a band carrying `over` if one exists; it fails with
`BandNotFoundError` exactly when no bounded band covers the salary and no
band carries `over`; and on the spec's three-band table {920, 1042,
over 1042}, gross 920 selects the first band, 921 the second and 1500 the
open band. -/
theorem c4_band_selection :
    (∀ (bands : List Band) (g : ℚ),
      ((∃ b ∈ bands, bandMatches g b = true) →
        ∃ b u, pickBand bands g = .ok b ∧ b ∈ bands ∧ b.upTo = some u ∧ g ≤ u ∧
          ∀ b' ∈ bands, ∀ u', b'.upTo = some u' → g ≤ u' → u ≤ u') ∧
      ((∀ b ∈ bands, bandMatches g b = false) →
        (∃ b ∈ bands, b.over.isSome = true) →
        ∃ b, pickBand bands g = .ok b ∧ b ∈ bands ∧ b.over.isSome = true) ∧
      (pickBand bands g = .error .bandNotFoundError ↔
        ∀ b ∈ bands, bandMatches g b = false ∧ b.over = none)) ∧
    pickBand bands920 920 = .ok { upTo := some 920, rate := 0.13, deduction := .lit 50 } ∧
    pickBand bands920 921 = .ok { upTo := some 1042, rate := 0.165, deduction := .lit 80 } ∧
    pickBand bands920 1500 = .ok { over := some 1042, rate := 0.22, deduction := .lit 120 } := by
  refine ⟨?_, by decide, by decide, by decide⟩
  intro bands g
  refine ⟨?_, ?_, ?_⟩
  · rintro ⟨b0, hb0, hm0⟩
    have hsome : ((sortBands bands).find? (bandMatches g)).isSome :=
      List.find?_isSome.mpr ⟨b0, mem_sortBands.mpr hb0, hm0⟩
    obtain ⟨b, hfind⟩ := Option.isSome_iff_exists.mp hsome
    have hmatch := List.find?_some hfind
    unfold bandMatches at hmatch
    cases hu : b.upTo with
    | none => rw [hu] at hmatch; cases hmatch
    | some u =>
      rw [hu] at hmatch
      have hgu : g ≤ u := of_decide_eq_true hmatch
      refine ⟨b, u, ?_, mem_sortBands.mp (List.mem_of_find?_eq_some hfind), hu, hgu, ?_⟩
      · unfold pickBand
        rw [hfind]
      · intro b' hb' u' hu' hgu'
        have hrel := find?_min_of_sorted _ (sorted_sortBands bands) b hfind b'
          (mem_sortBands.mpr hb')
          (by unfold bandMatches; rw [hu']; exact decide_eq_true hgu')
        unfold bandRel bandLeB at hrel
        rw [hu, hu'] at hrel
        exact of_decide_eq_true hrel
  · intro hnone hover
    have hfnone : (sortBands bands).find? (bandMatches g) = none :=
      List.find?_eq_none.mpr (fun x hx => by
        rw [hnone x (mem_sortBands.mp hx)]; simp)
    obtain ⟨b0, hb0, ho0⟩ := hover
    have hsome : ((sortBands bands).find? (fun b => b.over.isSome)).isSome :=
      List.find?_isSome.mpr ⟨b0, mem_sortBands.mpr hb0, ho0⟩
    obtain ⟨b, hfind⟩ := Option.isSome_iff_exists.mp hsome
    refine ⟨b, ?_, mem_sortBands.mp (List.mem_of_find?_eq_some hfind), ?_⟩
    · unfold pickBand
      rw [hfnone, hfind]
    · have := List.find?_some hfind
      simpa using this
  · constructor
    · intro h
      unfold pickBand at h
      split at h
      · cases h
      · rename_i hfind1
        split at h
        · cases h
        · rename_i hfind2
          intro b hb
          constructor
          · have := List.find?_eq_none.mp hfind1 b (mem_sortBands.mpr hb)
            exact Bool.not_eq_true _ ▸ this
          · have := List.find?_eq_none.mp hfind2 b (mem_sortBands.mpr hb)
            simpa using this
    · intro hall
      unfold pickBand
      rw [List.find?_eq_none.mpr (fun x hx => by
          rw [(hall x (mem_sortBands.mp hx)).1]; simp),
        List.find?_eq_none.mpr (fun x hx => by
          rw [show x.over = none from (hall x (mem_sortBands.mp hx)).2]; simp)]

/-- C1: for a valid input whose table, band and deduction resolve, the
withholding engine returns exactly the spec's formulas: withheld tax
`max(0, round2(gross * rate - deduction - additionalPerDependent *
dependents))` (hence never negative), social security `round2(gross *
ssRate)` with ssRate defaulting to 0.11, net `round2(gross - withheld -
socialSecurity)`, with the rate, deduction and per-dependent extra taken
from the selected band (per-dependent extra defaulting to 0). -/
theorem c1_withholding_formula :
    ∀ (ds : IrsDataset) (input : IrsInput) (t : IrsTable) (b : Band) (d : ℚ),
      0 < input.grossSalary →
      0 ≤ input.dependents →
      input.dependents.isInt = true →
      input.location = .continente →
      ds.tables.find? (fun tb => tb.id == pickTableId input.maritalStatus
        input.dependents (input.hasDisability.getD false)) = some t →
      pickBand t.bands input.grossSalary = .ok b →
      resolveDeduction b.deduction input.grossSalary = .ok d →
      calculate (some ds) input = .ok
        { tableId := pickTableId input.maritalStatus input.dependents
            (input.hasDisability.getD false)
          band := b
          rate := b.rate
          deduction := round2 d
          additionalPerDependent := round2 (b.additionalPerDependent.getD 0)
          irsWithheld := max 0 (round2 (input.grossSalary * b.rate - d -
            (b.additionalPerDependent.getD 0) * input.dependents))
          socialSecurity := round2 (input.grossSalary * (input.socialSecurityRate.getD 0.11))
          netSalary := round2 (input.grossSalary
            - max 0 (round2 (input.grossSalary * b.rate - d -
                (b.additionalPerDependent.getD 0) * input.dependents))
            - round2 (input.grossSalary * (input.socialSecurityRate.getD 0.11))) } ∧
      0 ≤ max 0 (round2 (input.grossSalary * b.rate - d -
        (b.additionalPerDependent.getD 0) * input.dependents)) := by
  intro ds input t b d h1 h2 h3 h4 ht hb hd
  constructor
  · simp only [calculate]
    rw [if_neg (not_le.mpr h1),
      if_neg (not_or.mpr ⟨not_lt.mpr h2, fun hf => by rw [h3] at hf; cases hf⟩),
      if_neg (fun hne => hne h4), ht]
    dsimp only
    rw [hb]
    dsimp only
    rw [hd]
    dsimp only
    rw [round2_max_comm]
  · exact le_max_left 0 _

/-- C1 witness: the spec's scenario B (gross 1200, single, 0 dependents,
band rate 0.212 and deduction 158.18) gives withheld 96.22, social
security 132.00 and net 971.78. -/
theorem c1_witness :
    calculate (some DSB) inpB = .ok
      { tableId := "I", band := bandB, rate := 0.212, deduction := 158.18,
        additionalPerDependent := 0, irsWithheld := 96.22,
        socialSecurity := 132, netSalary := 971.78 } ∧
    (0 : ℚ) ≤ (96.22 : ℚ) := by
  have h := c1_withholding_formula DSB inpB { id := "I", bands := [bandB] } bandB 158.18
    (by decide) (by decide) (by decide) (by decide) (by decide) (by decide) (by decide)
  exact ⟨h.1.trans (by decide), by norm_num⟩

/-- C5: the reverse solver's `solveForAnnualCost` coincides with the
claim's description: a binary search over [0, 1000000] whose only stopping
rule is the fixed count of 50 iterations, raising the lower bound to the
midpoint when the computed max net salary is below the target and lowering
the upper bound otherwise, and returning the result computed at the last
midpoint regardless of the residual gap. -/
theorem c5_binary_search :
    ∀ (data : Option IrsDataset) (input : ReverseCalculationInput) (flexPct : ℚ),
      solveForAnnualCost data input flexPct = specSolve data input flexPct := by
  intro d i p
  unfold solveForAnnualCost specSolve
  exact solveLoop_spec_eq 49 0 1000000 none

/-- C2 (amended): the decomposition the reverse solver actually computes:
taxable budget clamped at zero, de-grossed by `1 + TSU/100` (not by
`(1-p)(1+TSU)+p`), monthly distributable = after-TSU value over
months-to-pay-over, benefit share = after-TSU value times p over 12,
monthly gross = distributable minus benefit share, monthly IHT =
gross * IHT% / 100 (not `/ (100+IHT%)`), base salary = gross - IHT. -/
theorem c2_decomposition :
    ∀ (data : Option IrsDataset) (input : ReverseCalculationInput) (c p : ℚ)
      (r : CalculationProposal),
      calculateOutputs data input c p = .ok r →
      r.monthlyBenefits = totalValueAfterTsu input c * p / 12 ∧
      r.monthlyIHT = (totalValueAfterTsu input c / monthsToMultiply input
        - totalValueAfterTsu input c * p / 12) * input.ihtPercentage / 100 ∧
      r.monthlyBaseSalary = (totalValueAfterTsu input c / monthsToMultiply input
        - totalValueAfterTsu input c * p / 12) - r.monthlyIHT ∧
      r.monthlyMealAllowance = input.mealAllowanceDaily * input.mealAllowanceDays ∧
      r.annualCost = c ∧
      totalValueAfterTsu input c = max 0 (c - input.mealAllowanceDaily *
        input.mealAllowanceDays * input.mealAllowanceMonths) / (1 + input.tsu / 100) ∧
      monthsToMultiply input = (if input.hasDuodecimos then 12 else 14) := by
  intro data input c p r h
  obtain ⟨hflex, hac, hbase, hiht, hben, hmeal, -⟩ := calculateOutputs_ok_fields h
  refine ⟨?_, ?_, ?_, ?_, hac, ?_, rfl⟩
  · rw [hben]; rfl
  · rw [hiht]; rfl
  · rw [hbase, hiht]; rfl
  · rw [hmeal]; rfl
  · rfl

/-- C2 counterexample: at the always-probed first midpoint 500000 with
percentage 0 (input `revIht`: IHT percentage 100, no TSU, no meal
allowance), the code computes monthly IHT 125000/3 where the claim's
formula `monthly gross * IHT% / (100 + IHT%)` gives 62500/3. -/
theorem c2_counterexample :
    (calculateOutputs (some DS0) revIht 500000 0).map (fun r => r.monthlyIHT) =
      .ok (125000 / 3) ∧
    claimMonthlyIHT revIht 500000 0 = 62500 / 3 ∧
    (125000 / 3 : ℚ) ≠ 62500 / 3 := by
  refine ⟨by decide, by decide, by norm_num⟩

/-- C2 witness: the amended decomposition instantiated on a concrete
successful call (`DS0`, input `revIht`, annual cost 120, percentage 0). -/
theorem c2_witness :
    c2wProposal.monthlyBenefits = totalValueAfterTsu revIht 120 * 0 / 12 ∧
    c2wProposal.monthlyIHT = (totalValueAfterTsu revIht 120 / monthsToMultiply revIht
      - totalValueAfterTsu revIht 120 * 0 / 12) * revIht.ihtPercentage / 100 ∧
    c2wProposal.monthlyBaseSalary = (totalValueAfterTsu revIht 120 / monthsToMultiply revIht
      - totalValueAfterTsu revIht 120 * 0 / 12) - c2wProposal.monthlyIHT ∧
    c2wProposal.monthlyMealAllowance = revIht.mealAllowanceDaily * revIht.mealAllowanceDays ∧
    c2wProposal.annualCost = 120 ∧
    totalValueAfterTsu revIht 120 = max 0 (120 - revIht.mealAllowanceDaily *
      revIht.mealAllowanceDays * revIht.mealAllowanceMonths) / (1 + revIht.tsu / 100) ∧
    monthsToMultiply revIht = (if revIht.hasDuodecimos then 12 else 14) :=
  c2_decomposition (some DS0) revIht 120 0 c2wProposal (by decide)

/-- C8: whenever `getProposals` succeeds, it returns exactly 7 proposals
whose percentages are 0, 5, 10, 15, 20, 25, 30 in ascending order. -/
theorem c8_proposals :
    ∀ (data : Option IrsDataset) (input : ReverseCalculationInput)
      (ps : List CalculationProposal),
      getProposals data input = .ok ps →
      ps.length = 7 ∧
      ps.map (fun r => r.flexBenefitsPercentage) = [0, 5, 10, 15, 20, 25, 30] := by
  intro data input ps h
  obtain ⟨hlen, hmap⟩ := proposalsLoop_spec sweepPercentages ps h
  refine ⟨by simpa [sweepPercentages] using hlen, ?_⟩
  rw [hmap]
  decide

/-- C8 witness: a concrete input (no meal allowance, so every inner call
succeeds) on which `getProposals` returns the 7 proposals. -/
theorem c8_witness :
    ∃ ps, getProposals (some DS0) revOk = .ok ps ∧ ps.length = 7 ∧
      ps.map (fun r => r.flexBenefitsPercentage) = [0, 5, 10, 15, 20, 25, 30] := by
  have hok : (getProposals (some DS0) revOk).isOk = true := by decide
  cases hps : getProposals (some DS0) revOk with
  | ok ps => exact ⟨ps, rfl, c8_proposals (some DS0) revOk ps hps⟩
  | error e => rw [hps] at hok; cases hok

/-- C9 counterexample: on dataset `DS9` (single band up to 2000, rate 20%,
literal deduction 100), raising the gross salary from 1000.771 to 1000.775
within the same band drops the net salary from 790.54 to 790.53: rounding
of the withheld tax and of the social security each jump by a full cent
while the gross gains only 0.004. -/
theorem c9_counterexample :
    inp9a.grossSalary < inp9b.grossSalary ∧
    calculate (some DS9) inp9a = .ok res9a ∧
    calculate (some DS9) inp9b = .ok res9b ∧
    res9a.band = res9b.band ∧
    res9b.netSalary < res9a.netSalary := by
  exact ⟨by decide, by decide, by decide, by decide, by decide⟩

/-- C9 (amended): within one band, a gross-salary increase can lower the
net salary by at most 0.05 (the cent roundings of withheld tax, social
security and net salary), provided the band's marginal rate is nonnegative
and marginal rate + deduction slope + social-security rate stay within 1;
exact non-decrease fails (see the counterexample). -/
theorem c9_net_monotonicity :
    ∀ (ds : IrsDataset) (inp1 inp2 : IrsInput) (r1 r2 : IrsResult) (d1 d2 : ℚ),
      calculate (some ds) inp1 = .ok r1 →
      calculate (some ds) inp2 = .ok r2 →
      inp2.dependents = inp1.dependents →
      inp2.socialSecurityRate = inp1.socialSecurityRate →
      r2.band = r1.band →
      resolveDeduction r1.band.deduction inp1.grossSalary = .ok d1 →
      resolveDeduction r1.band.deduction inp2.grossSalary = .ok d2 →
      inp1.grossSalary ≤ inp2.grossSalary →
      d2 ≤ d1 →
      0 ≤ r1.band.rate →
      r1.band.rate * (inp2.grossSalary - inp1.grossSalary) + (d1 - d2)
        + (inp1.socialSecurityRate.getD 0.11) * (inp2.grossSalary - inp1.grossSalary)
        ≤ inp2.grossSalary - inp1.grossSalary →
      r1.netSalary - r2.netSalary ≤ 1 / 20 := by
  intro ds inp1 inp2 r1 r2 d1 d2 hcal1 hcal2 hdep hssr hband hd1 hd2 hg hd21 hrate hslope
  obtain ⟨-, -, -, -, t1, -, -, dd1, hded1, -, -, -, -, hW1, hS1, hN1⟩ :=
    calculate_ok_spec hcal1
  obtain ⟨-, -, -, -, t2, -, -, dd2, hded2, -, -, -, -, hW2, hS2, hN2⟩ :=
    calculate_ok_spec hcal2
  rw [hband] at hded2 hW2
  rw [hdep] at hW2
  rw [hssr] at hS2
  have e1 : d1 = dd1 := (Except.ok.inj (hded1.symm.trans hd1)).symm
  have e2 : d2 = dd2 := (Except.ok.inj (hded2.symm.trans hd2)).symm
  subst e1
  subst e2
  set g1 := inp1.grossSalary with hg1d
  set g2 := inp2.grossSalary with hg2d
  set rate := r1.band.rate with hrated
  set addl := r1.band.additionalPerDependent.getD 0 with haddld
  set dep := inp1.dependents with hdepd
  set ss := inp1.socialSecurityRate.getD 0.11 with hssd
  set raw1 := g1 * rate - d1 - addl * dep with hraw1
  set raw2 := g2 * rate - d2 - addl * dep with hraw2
  have hraw : raw1 ≤ raw2 := by
    have hmul : 0 ≤ rate * (g2 - g1) := mul_nonneg hrate (sub_nonneg.mpr hg)
    rw [hraw1, hraw2]
    nlinarith
  have hWa : max 0 raw1 - 1 / 200 ≤ r1.irsWithheld := by
    rw [hW1]; exact round2_ge _
  have hWb : r2.irsWithheld ≤ max 0 raw2 + 1 / 100 := by
    rw [hW2]; exact round2_le _
  have hmax : max 0 raw2 ≤ max 0 raw1 + (raw2 - raw1) := max0_le_shift hraw
  have hSa : g1 * ss - 1 / 200 ≤ r1.socialSecurity := by
    rw [hS1]; exact round2_ge _
  have hSb : r2.socialSecurity ≤ g2 * ss + 1 / 100 := by
    rw [hS2]; exact round2_le _
  have hNa : r1.netSalary ≤ (g1 - r1.irsWithheld - r1.socialSecurity) + 1 / 100 := by
    rw [hN1]; exact round2_le _
  have hNb : (g2 - r2.irsWithheld - r2.socialSecurity) - 1 / 200 ≤ r2.netSalary := by
    rw [hN2]; exact round2_ge _
  have hslope2 : (raw2 - raw1) + (g2 * ss - g1 * ss) ≤ g2 - g1 := by
    rw [hraw1, hraw2]
    nlinarith [hslope]
  linarith

/-- C9 witness: the amended bound applied on `DS9` at gross 1000.771 and
1000.775 (net salaries 790.54 and 790.53). -/
theorem c9_witness : res9a.netSalary - res9b.netSalary ≤ 1 / 20 :=
  c9_net_monotonicity DS9 inp9a inp9b res9a res9b 100 100
    (by decide) (by decide) (by decide) (by decide) (by decide)
    (by decide) (by decide) (by decide) (by decide) (by decide) (by decide)

/-- On the dataset `DS0` (single open band, rate 0, deduction 0) with
social-security rate 0, every successful `calculate` returns a nonnegative
net salary. -/
theorem calculate_DS0_net_nonneg {inp : IrsInput} {r : IrsResult}
    (h : calculate (some DS0) inp = .ok r) (hss : inp.socialSecurityRate = some 0) :
    0 ≤ r.netSalary := by
  obtain ⟨hg, -, -, -, t, ht, hpick, d, hded, -, -, -, -, hW, hS, hN⟩ :=
    calculate_ok_spec h
  have htv : t = { id := "I", bands := [{ over := some 0, rate := 0, deduction := Deduction.lit 0 }] } := by
    have hsimp := ht
    simp only [DS0, List.find?] at hsimp
    split at hsimp
    · exact (Option.some.inj hsimp).symm
    · cases hsimp
  subst htv
  have hbmem := pickBand_ok_mem hpick
  simp only [List.mem_singleton] at hbmem
  rw [hbmem] at hded hW
  have hd0 : (0 : ℚ) = d := Except.ok.inj hded
  subst hd0
  simp only [Option.getD_none, Option.getD_some, hss, mul_zero, zero_mul,
    mul_comm] at hW hS
  have hW0 : r.irsWithheld = 0 := by
    rw [hW]
    norm_num
    exact round2_zero
  have hS0 : r.socialSecurity = 0 := by
    rw [hS]
    exact round2_zero
  rw [hN, hW0, hS0]
  have : (0 : ℚ) ≤ inp.grossSalary - 0 - 0 := by linarith
  exact round2_nonneg this

/-- C10 (amended): the taxable budget is clamped at zero, so a probed
candidate cost at or below the annual meal allowance makes every monthly
component 0 and the inner withholding call fail its gross-salary > 0
validation; consequently, when the annual meal allowance is at least
1000000/2⁵⁰ (the smallest midpoint 50 halvings can reach) and the target
net salary stays below the computed max net salary at every midpoint the
solver can probe, `getProposals` fails instead of returning proposals. -/
theorem c10_meal_clamp :
    ∀ (ds : IrsDataset) (input : ReverseCalculationInput),
      (∀ c p, c ≤ annualDailyMealAllowance input →
        calculateOutputs (some ds) input c p =
          .error (.validationError "grossSalary must be a positive number.")) ∧
      ((∀ mid r, calculateOutputs (some ds) input mid 0 = .ok r →
          ¬ (r.totalNetMax < input.targetNetSalary)) →
        1000000 / 2 ^ 50 ≤ annualDailyMealAllowance input →
        ∃ e, getProposals (some ds) input = .error e) := by
  intro ds input
  constructor
  · intro c p hc
    exact calculateOutputs_meal_error hc
  · intro hH hmeal
    obtain ⟨e, he⟩ := solveLoop_error_of_meal hH 50 1000000 none (by norm_num) hmeal
    refine ⟨e, ?_⟩
    unfold getProposals sweepPercentages proposalsLoop
    have h0 : solveForAnnualCost (some ds) input
        (if (0 : ℚ) == 0 then 0 else 0 / 100) = .error e := by
      rw [show (if (0 : ℚ) == 0 then (0 : ℚ) else 0 / 100) = 0 from by norm_num]
      unfold solveForAnnualCost
      rw [he]
      rfl
    rw [h0]

/-- C10 witness: input `revMeal` (meal allowance 10 × 22 × 11 = 2420
annually, target net salary 0): on `DS0` every successful probe has
nonnegative max net salary, so the search descends until the midpoint
falls under the meal allowance and `getProposals` fails; moreover a probe
at cost 2000 ≤ 2420 fails with the gross-salary validation error. -/
theorem c10_witness :
    (∃ e, getProposals (some DS0) revMeal = .error e) ∧
    calculateOutputs (some DS0) revMeal 2000 0 =
      .error (.validationError "grossSalary must be a positive number.") := by
  have hc := c10_meal_clamp DS0 revMeal
  constructor
  · apply hc.2
    · intro mid r h
      obtain ⟨-, -, -, -, -, -, cmax, hcmax, -, -, htot⟩ :=
        calculateOutputs_ok_fields h
      have hnet : 0 ≤ cmax.netSalary := calculate_DS0_net_nonneg hcmax rfl
      have hben : monthlyValueToBenefits revMeal mid 0 = 0 := by
        simp [monthlyValueToBenefits]
      have hmealv : monthlyMealAllowanceOf revMeal = 220 := by decide
      rw [htot, hben, hmealv]
      have htarget : revMeal.targetNetSalary = 0 := rfl
      rw [htarget]
      linarith
    · have : annualDailyMealAllowance revMeal = 2420 := by decide
      rw [this]
      norm_num
  · exact hc.1 2000 0 (by decide)

/-- C10 counterexample: with a positive but tiny meal allowance (annual
value 2⁻⁵¹, below the smallest reachable midpoint 1000000/2⁵⁰) and target
net salary 0, every inner call succeeds and `getProposals` returns its 7
proposals, refuting the claim's "for every input with a positive meal
allowance ... getProposals throws". -/
theorem c10_counterexample :
    0 < annualDailyMealAllowance revTiny ∧
    annualDailyMealAllowance revTiny < 1000000 / 2 ^ 50 ∧
    (getProposals (some DS0) revTiny).map (fun l => l.length) = .ok 7 := by
  refine ⟨by decide, by decide, by decide⟩

end SalarySim
